import Mathlib

/-!
Shallow embedding of the actor runtime of `autodidaqt` (file
`src/autodidaqt/actor.py`) and of the run-saver registry
(`src/src/daquiri/experiment/save.py`).

The Python code is asynchronous; its cooperative scheduling is irrelevant to
the verified properties because only the owning actor task dequeues its
mailbox, so a mailbox drain is a sequential fold over the queued messages.
Machine effects are made explicit:
  * the mailbox (`asyncio.Queue`) becomes a FIFO list of messages;
  * calls to `shutdown()`, `respond_did_shutdown` and `handle_user_message`
    are recorded in an event trace;
  * exceptions become an explicit result value: `StopException` (raised by
    `handle_message` on `RequestShutdown`) and arbitrary other exceptions
    (type `ε`) that user handlers may raise.
-/

namespace Autodidaqt

/-- A message delivered to an actor mailbox.  `requestShutdown` embeds the
`RequestShutdown` command of `autodidaqt_common.remote.command` (it carries a
response channel in Python; the acknowledgment is recorded as a trace event
here).  `user a` is an opaque user message with payload `a`. -/
inductive Message (α : Type) where
  | requestShutdown : Message α
  | user (a : α) : Message α
deriving DecidableEq, Repr

/-- Observable events emitted while a `MessagingActor` processes messages:
a call to the actor's own `shutdown()`, the acknowledgment
`message.respond_did_shutdown(self.app)`, an invocation of
`handle_user_message` with payload `a`, and one execution of `run_step`. -/
inductive Event (α : Type) where
  | shutdownCall : Event α
  | didShutdownAck : Event α
  | userMsg (a : α) : Event α
  | stepRun : Event α
deriving DecidableEq, Repr

/-- Outcome of one handler call: normal completion, the control-flow
`StopException` of `actor.py`, or any other exception `e : ε`. -/
inductive StepResult (ε : Type) where
  | ok : StepResult ε
  | stop : StepResult ε
  | exc (e : ε) : StepResult ε
deriving DecidableEq, Repr

/-- The overridable parts of a `MessagingActor` subclass, over a private
state `σ`: `hUser` embeds `handle_user_message` (it may update the state and
may raise), `shutdownF` embeds `shutdown()` (default `pass`), `runStepF`
embeds `run_step` (default `pass`); like the handlers, `run_step` is awaited
inside the `try` of `run`, so it too may raise `StopException` or any other
exception. -/
structure ActorM (σ α ε : Type) where
  hUser : σ → α → σ × StepResult ε
  shutdownF : σ → σ
  runStepF : σ → σ × StepResult ε

/-- The class `MessagingActor` itself: `handle_user_message` is `pass`
(returns `None`, no state change), `shutdown` is `pass` (inherited from
`Actor`), `run_step` is `pass`. -/
def defaultActor (σ α ε : Type) : ActorM σ α ε :=
  { hUser := fun s _ => (s, StepResult.ok)
    shutdownF := id
    runStepF := fun s => (s, StepResult.ok) }

/-- `MessagingActor.handle_message` (actor.py lines 64-72): a
`RequestShutdown` message calls `self.shutdown()`, then acknowledges via
`message.respond_did_shutdown(self.app)`, then raises `StopException`; every
other message is forwarded to `handle_user_message`. -/
def handle_message (A : ActorM σ α ε) (s : σ) :
    Message α → σ × List (Event α) × StepResult ε
  | Message.requestShutdown =>
      (A.shutdownF s, [Event.shutdownCall, Event.didShutdownAck], StepResult.stop)
  | Message.user a =>
      let r := A.hUser s a
      (r.1, [Event.userMsg a], r.2)

/-- Result of one mailbox drain (`read_messages`): final state, the messages
actually passed to `handle_message` in order, the emitted events, the
messages left in the queue, and how the drain ended (`ok` = the
`asyncio.QueueEmpty` branch, otherwise the exception that propagated). -/
structure DrainResult (σ α ε : Type) where
  state : σ
  handled : List (Message α)
  trace : List (Event α)
  rest : List (Message α)
  res : StepResult ε
deriving DecidableEq, Repr

/-- `MessagingActor.read_messages` (actor.py lines 74-81): repeatedly
`get_nowait` a message and `await handle_message` on it; an empty queue
raises `asyncio.QueueEmpty`, which is caught so the drain returns normally.
A `StopException` (or any other exception) from `handle_message` propagates,
leaving the not-yet-dequeued messages in the queue. -/
def read_messages (A : ActorM σ α ε) (s : σ) :
    List (Message α) → DrainResult σ α ε
  | [] => ⟨s, [], [], [], StepResult.ok⟩
  | m :: ms =>
      match handle_message A s m with
      | (s1, evs, StepResult.ok) =>
          let d := read_messages A s1 ms
          ⟨d.state, m :: d.handled, evs ++ d.trace, d.rest, d.res⟩
      | (s1, evs, StepResult.stop) => ⟨s1, [m], evs, ms, StepResult.stop⟩
      | (s1, evs, StepResult.exc e) => ⟨s1, [m], evs, ms, StepResult.exc e⟩

/-- How `MessagingActor.run` ends: `normal` is the `except StopException:
return` branch, `raised e` is any other exception propagating out of the
loop body, `running` means the loop is still going (the model observes only
finitely many iterations). -/
inductive RunExit (ε : Type) where
  | normal : RunExit ε
  | raised (e : ε) : RunExit ε
  | running : RunExit ε
deriving DecidableEq, Repr

/-- Observation of finitely many iterations of `MessagingActor.run`:
final state, all messages dispatched to `handle_message` in order, the
event trace, the messages still pending in the mailbox, and the exit. -/
structure RunResult (σ α ε : Type) where
  state : σ
  handled : List (Message α)
  trace : List (Event α)
  pending : List (Message α)
  exit : RunExit ε
deriving DecidableEq, Repr

/-- `MessagingActor.run` (actor.py lines 48-59): `while True: await
read_messages(); await run_step()`, wrapped in `try ... except
StopException: return`.  The schedule `sched` lists, for each observed
iteration, the batch of messages that producers enqueued since the previous
iteration; after the last observed iteration the loop is still `running`. -/
def run (A : ActorM σ α ε) (s : σ) :
    List (List (Message α)) → RunResult σ α ε
  | [] => ⟨s, [], [], [], RunExit.running⟩
  | batch :: sched =>
      let d := read_messages A s batch
      match d.res with
      | StepResult.ok =>
          match A.runStepF d.state with
          | (s2, StepResult.ok) =>
              let r := run A s2 sched
              ⟨r.state, d.handled ++ r.handled,
                d.trace ++ [Event.stepRun] ++ r.trace, r.pending, r.exit⟩
          | (s2, StepResult.stop) =>
              ⟨s2, d.handled, d.trace ++ [Event.stepRun], d.rest,
                RunExit.normal⟩
          | (s2, StepResult.exc e) =>
              ⟨s2, d.handled, d.trace ++ [Event.stepRun], d.rest,
                RunExit.raised e⟩
      | StepResult.stop => ⟨d.state, d.handled, d.trace, d.rest, RunExit.normal⟩
      | StepResult.exc e => ⟨d.state, d.handled, d.trace, d.rest, RunExit.raised e⟩

/-- The first abnormal signal raised from within the loop body — message
handling or `run_step`, both of which sit inside the `try` of `run` —
over the observed iterations (`ok` if everything returned normally): the
specification-side description of what can end `run`. -/
def loopSignal (A : ActorM σ α ε) (s : σ) :
    List (List (Message α)) → StepResult ε
  | [] => StepResult.ok
  | batch :: sched =>
      let d := read_messages A s batch
      match d.res with
      | StepResult.ok =>
          match A.runStepF d.state with
          | (s2, StepResult.ok) => loopSignal A s2 sched
          | (_, r) => r
      | r => r

/-- The first abnormal signal raised from within message handling only,
ignoring signals from `run_step`: the literal reading of the claim that
message handling is the sole source of the loop-ending `StopException`. -/
def msgSignal (A : ActorM σ α ε) (s : σ) :
    List (List (Message α)) → StepResult ε
  | [] => StepResult.ok
  | batch :: sched =>
      let d := read_messages A s batch
      match d.res with
      | StepResult.ok =>
          match A.runStepF d.state with
          | (s2, StepResult.ok) => msgSignal A s2 sched
          | (_, _) => StepResult.ok
      | r => r

/-- A `MessagingActor` subclass that overrides only `run_step`, with a body
that raises `StopException` (legal in the source: `run_step` is awaited
inside the same `try ... except StopException` as the drain). -/
def stepStopActor : ActorM Nat Nat Nat :=
  { hUser := fun s _ => (s, StepResult.ok)
    shutdownF := id
    runStepF := fun s => (s, StepResult.stop) }

/-- `autodidaqt.state.ActorState` (that module is not part of the examined
sources; `actor.py` only constructs it with no arguments, so it is embedded
as the nullary record its default constructor produces). -/
structure ActorState where
deriving DecidableEq, Repr

/-- The plain `Actor` class (actor.py lines 18-44): `self.app` and the
mailbox `self.messages`, which is `None` until `prepare` allocates it. -/
structure PActor (A α : Type) where
  app : A
  messages : Option (List (Message α))
deriving DecidableEq, Repr

/-- `Actor.__init__` (actor.py lines 21-23): stores the application handle
and sets `self.messages = None`. -/
def Actor.init (app : A) : PActor A α := ⟨app, none⟩

/-- `Actor.prepare` (actor.py lines 25-26): `self.messages =
asyncio.Queue()` — allocates a fresh empty FIFO mailbox. -/
def Actor.prepare (a : PActor A α) : PActor A α := { a with messages := some [] }

/-- `Actor.collect_state` (actor.py lines 34-35): `return ActorState()`.
The method body only constructs a new value, so the actor after the call is
returned unchanged alongside the state. -/
def Actor.collect_state (a : PActor A α) : ActorState × PActor A α :=
  (ActorState.mk, a)

/-- `Actor.receive_state` (actor.py lines 37-38): `pass` — the actor is
returned unchanged. -/
def Actor.receive_state (a : PActor A α) (_st : ActorState) : PActor A α := a

/-- Exceptions of the Python runtime that `Actor.run` can raise. -/
inductive PyExc where
  | notImplementedError : PyExc
deriving DecidableEq, Repr

/-- `Actor.run` (actor.py lines 28-29): `raise NotImplementedError`.  The
first component lists the user messages handled before the exception (none:
the method raises immediately, so no handler is ever invoked). -/
def Actor.run (_a : PActor A α) : List α × Except PyExc Unit :=
  ([], Except.error PyExc.notImplementedError)

/-- `EchoActor.handle_user_message` (actor.py lines 90-92): `print(message)`
— returns the line that would be printed. -/
def EchoActor.handle_user_message (message : α) : List α := [message]

/-- `EchoActor.run`: `EchoActor` subclasses `Actor` and does not override
`run`, so its `run` is `Actor.run` by inheritance. -/
def EchoActor.run (a : PActor A α) : List α × Except PyExc Unit := Actor.run a

/-- Modelled from the spec: the Supervisor startup pass is not among the
examined sources (only `actor.py` is).  Spec section 4.3, Startup: "for each
registered actor, call `prepare` then schedule `run` as an independent
concurrently-executing task".  The registry maps names to actors; startup
calls `prepare` once on each registered actor. -/
def startup : List (String × PActor A α) → List (String × PActor A α)
  | [] => []
  | (n, a) :: rest => (n, Actor.prepare a) :: startup rest

end Autodidaqt

namespace Daquiri

/-- The saver classes defined in `src/src/daquiri/experiment/save.py`. -/
inductive SaverCls where
  | zarrSaver : SaverCls
  | pickleSaver : SaverCls
  | netCDFSaver : SaverCls
  | forgetfulSaver : SaverCls
deriving DecidableEq, Repr

/-- `short_name` class attribute of each saver (save.py). -/
def short_name : SaverCls → String
  | SaverCls.zarrSaver => "zarr"
  | SaverCls.pickleSaver => "pickle"
  | SaverCls.netCDFSaver => "nc"
  | SaverCls.forgetfulSaver => "forget"

/-- `_by_short_names` (save.py lines 208-210): dict built from the saver
list keyed by `short_name`, kept as an association list. -/
def _by_short_names : List (String × SaverCls) :=
  [SaverCls.zarrSaver, SaverCls.pickleSaver, SaverCls.netCDFSaver,
    SaverCls.forgetfulSaver].map (fun c => (short_name c, c))

/-- `save_cls_from_short_name = _by_short_names.get` (save.py line 211):
`dict.get` returns `None` on a missing key instead of raising. -/
def save_cls_from_short_name (s : String) : Option SaverCls :=
  (_by_short_names.find? (fun p => p.1 = s)).map Prod.snd

/-- A filesystem write performed by a saver: the path written (relative to
the save directory) and an opaque payload. -/
structure WriteEffect (β : Type) where
  path : String
  payload : β
deriving DecidableEq, Repr

/-- `ForgetfulSaver.save_run` (save.py lines 200-202): `return` — performs
no writes for any metadata, data and context. -/
def ForgetfulSaver.save_run (_metadata : μ) (_data : δ) (_context : γ) :
    List (WriteEffect β) := []

/-- `ForgetfulSaver.save_user_extras` (save.py lines 204-206): `return` —
performs no writes for any extras and context. -/
def ForgetfulSaver.save_user_extras (_extras : η) (_context : γ) :
    List (WriteEffect β) := []

end Daquiri

namespace Autodidaqt

/-- A drain dispatches a prefix of the queue: the handled messages followed
by the untouched rest reassemble the original queue. -/
theorem read_messages_handled_append_rest (A : ActorM σ α ε) (s : σ)
    (q : List (Message α)) :
    (read_messages A s q).handled ++ (read_messages A s q).rest = q := by
  induction q generalizing s with
  | nil => simp [read_messages]
  | cons m ms ih =>
    rcases hm : handle_message A s m with ⟨s1, evs, r⟩
    cases r with
    | ok => simp [read_messages, hm, ih]
    | stop => simp [read_messages, hm]
    | exc e => simp [read_messages, hm]

/-- A drain that ends in the `QueueEmpty` branch dispatched every queued
message and left the queue empty. -/
theorem read_messages_of_ok (A : ActorM σ α ε) (s : σ) (q : List (Message α))
    (h : (read_messages A s q).res = StepResult.ok) :
    (read_messages A s q).handled = q ∧ (read_messages A s q).rest = [] := by
  induction q generalizing s with
  | nil => simp [read_messages]
  | cons m ms ih =>
    rcases hm : handle_message A s m with ⟨s1, evs, r⟩
    cases r with
    | ok =>
      simp only [read_messages, hm] at h ⊢
      exact ⟨by simp [(ih s1 h).1], (ih s1 h).2⟩
    | stop => simp [read_messages, hm] at h
    | exc e => simp [read_messages, hm] at h

/-- Draining a concatenation whose first part completes normally equals
draining the first part and continuing with the second from the reached
state. -/
theorem read_messages_append (A : ActorM σ α ε) (s : σ)
    (q₁ q₂ : List (Message α)) (h : (read_messages A s q₁).res = StepResult.ok) :
    read_messages A s (q₁ ++ q₂)
      = ⟨(read_messages A (read_messages A s q₁).state q₂).state,
         (read_messages A s q₁).handled
           ++ (read_messages A (read_messages A s q₁).state q₂).handled,
         (read_messages A s q₁).trace
           ++ (read_messages A (read_messages A s q₁).state q₂).trace,
         (read_messages A (read_messages A s q₁).state q₂).rest,
         (read_messages A (read_messages A s q₁).state q₂).res⟩ := by
  induction q₁ generalizing s with
  | nil => simp [read_messages]
  | cons m ms ih =>
    rcases hm : handle_message A s m with ⟨s1, evs, r⟩
    cases r with
    | ok =>
      simp only [read_messages, hm] at h ⊢
      simp [ih s1 h]
    | stop => simp [read_messages, hm] at h
    | exc e => simp [read_messages, hm] at h

/-- Shutdown-call and acknowledgment events in a drain trace are in
bijection with the dispatched `RequestShutdown` messages, and at most one
`RequestShutdown` is ever dispatched in a single drain. -/
theorem read_messages_shutdown_counts [DecidableEq α] (A : ActorM σ α ε)
    (s : σ) (q : List (Message α)) :
    (read_messages A s q).trace.count (Event.shutdownCall)
        = (read_messages A s q).handled.count (Message.requestShutdown)
    ∧ (read_messages A s q).trace.count (Event.didShutdownAck)
        = (read_messages A s q).handled.count (Message.requestShutdown)
    ∧ (read_messages A s q).handled.count (Message.requestShutdown) ≤ 1 := by
  induction q generalizing s with
  | nil => simp [read_messages]
  | cons m ms ih =>
    cases m with
    | requestShutdown => simp [read_messages, handle_message]
    | user a =>
      rcases hm : A.hUser s a with ⟨s1, r⟩
      cases r with
      | ok =>
        have := ih s1
        simp only [read_messages, handle_message, hm] at *
        simpa using this
      | stop => simp [read_messages, handle_message, hm]
      | exc e => simp [read_messages, handle_message, hm]

/-- The messages dispatched during a finite observation of `run` form a
prefix of all messages that arrived, in arrival order. -/
theorem run_handled_prefix (A : ActorM σ α ε) (s : σ)
    (sched : List (List (Message α))) :
    ∃ t, List.flatten sched = (run A s sched).handled ++ t := by
  induction sched generalizing s with
  | nil => exact ⟨[], rfl⟩
  | cons batch sched ih =>
    have hb := read_messages_handled_append_rest A s batch
    rcases hr : (read_messages A s batch).res with _ | _ | e
    · rcases hp : A.runStepF (read_messages A s batch).state with ⟨s2, rs⟩
      cases rs with
      | ok =>
        obtain ⟨t, ht⟩ := ih s2
        refine ⟨t, ?_⟩
        simp [run, hr, hp, List.flatten_cons,
          (read_messages_of_ok A s batch hr).1, ht]
      | stop =>
        refine ⟨List.flatten sched, ?_⟩
        simp [run, hr, hp, List.flatten_cons,
          (read_messages_of_ok A s batch hr).1]
      | exc e =>
        refine ⟨List.flatten sched, ?_⟩
        simp [run, hr, hp, List.flatten_cons,
          (read_messages_of_ok A s batch hr).1]
    · refine ⟨(read_messages A s batch).rest ++ List.flatten sched, ?_⟩
      simp only [run, hr, List.flatten_cons]
      rw [← List.append_assoc, hb]
    · refine ⟨(read_messages A s batch).rest ++ List.flatten sched, ?_⟩
      simp only [run, hr, List.flatten_cons]
      rw [← List.append_assoc, hb]

/-- C1: on `RequestShutdown`, `handle_message` calls `shutdown()` exactly
once, then sends exactly one acknowledgment, then stops the run loop (the
trace `[shutdownCall, didShutdownAck]` fixes the order and counts); across
any drain, shutdown calls and acknowledgments are one-to-one with dispatched
`RequestShutdown` messages and never exceed one, so no `RequestShutdown`
results in zero or two `shutdown()` calls; a dispatched `RequestShutdown`
terminates `run` normally. -/
theorem requestShutdown_shutdown_ack_stop [DecidableEq α]
    (A : ActorM σ α ε) (s : σ) (q : List (Message α))
    (sched : List (List (Message α))) :
    handle_message A s Message.requestShutdown
        = (A.shutdownF s, [Event.shutdownCall, Event.didShutdownAck],
            StepResult.stop)
    ∧ (read_messages A s q).trace.count (Event.shutdownCall)
        = (read_messages A s q).handled.count (Message.requestShutdown)
    ∧ (read_messages A s q).trace.count (Event.didShutdownAck)
        = (read_messages A s q).handled.count (Message.requestShutdown)
    ∧ (read_messages A s q).handled.count (Message.requestShutdown) ≤ 1
    ∧ (run A s ([Message.requestShutdown] :: sched)).exit = RunExit.normal :=
  ⟨rfl, (read_messages_shutdown_counts A s q).1,
    (read_messages_shutdown_counts A s q).2.1,
    (read_messages_shutdown_counts A s q).2.2, rfl⟩

/-- C2: the messages dispatched to `handle_message` during a drain are the
queued messages in enqueue (FIFO) order — a prefix of the queue, and the
whole queue whenever the drain completes normally — and over any finite
observation of `run`, the dispatched messages are a prefix of all arrived
messages in arrival order. -/
theorem mailbox_fifo_dispatch (A : ActorM σ α ε) (s : σ)
    (q : List (Message α)) (sched : List (List (Message α))) :
    (read_messages A s q).handled ++ (read_messages A s q).rest = q
    ∧ ((read_messages A s q).res = StepResult.ok →
        (read_messages A s q).handled = q)
    ∧ ∃ t, List.flatten sched = (run A s sched).handled ++ t :=
  ⟨read_messages_handled_append_rest A s q,
    fun h => (read_messages_of_ok A s q h).1,
    run_handled_prefix A s sched⟩

/-- C2 witness: with the stock `MessagingActor` and queue
`[user 1, user 2]`, the drain completes normally and dispatches exactly
those messages in order. -/
theorem mailbox_fifo_dispatch_witness :
    (read_messages (defaultActor Nat Nat Nat) 0
        [Message.user 1, Message.user 2]).res = StepResult.ok
    ∧ (read_messages (defaultActor Nat Nat Nat) 0
        [Message.user 1, Message.user 2]).handled
        = [Message.user 1, Message.user 2] :=
  ⟨by decide,
    (mailbox_fifo_dispatch (defaultActor Nat Nat Nat) 0
        [Message.user 1, Message.user 2] []).2.1 (by decide)⟩

/-- C3: draining an empty mailbox returns at once with nothing dispatched
and the state untouched, and whenever a drain completes normally the same
iteration of `run` goes on to execute `run_step` right after it (the
`stepRun` event follows the drain trace in the same iteration; the loop
continues only if `run_step` itself returned normally). -/
theorem drain_nonblocking_step_liveness (A : ActorM σ α ε) (s : σ)
    (q : List (Message α)) (sched : List (List (Message α))) :
    read_messages A s ([] : List (Message α))
        = ⟨s, [], [], [], StepResult.ok⟩
    ∧ ((read_messages A s q).res = StepResult.ok →
        (run A s (q :: sched)).trace
          = (read_messages A s q).trace ++ [Event.stepRun]
              ++ (match (A.runStepF (read_messages A s q).state).2 with
                  | StepResult.ok =>
                      (run A (A.runStepF (read_messages A s q).state).1
                        sched).trace
                  | StepResult.stop => []
                  | StepResult.exc _ => [])) :=
  ⟨rfl, fun h => by
    rcases hp : A.runStepF (read_messages A s q).state with ⟨s2, rs⟩
    cases rs <;> simp [run, h, hp]⟩

/-- C3 witness: an empty mailbox drains at once, and with a one-message
queue the iteration's trace is the drain trace followed by `stepRun`. -/
theorem drain_nonblocking_step_liveness_witness :
    read_messages (defaultActor Nat Nat Nat) 0 ([] : List (Message Nat))
        = ⟨0, [], [], [], StepResult.ok⟩
    ∧ (read_messages (defaultActor Nat Nat Nat) 0 [Message.user 5]).res
        = StepResult.ok
    ∧ (run (defaultActor Nat Nat Nat) 0 [[Message.user 5]]).trace
        = (read_messages (defaultActor Nat Nat Nat) 0 [Message.user 5]).trace
            ++ [Event.stepRun]
            ++ (run (defaultActor Nat Nat Nat)
                ((defaultActor Nat Nat Nat).runStepF
                  (read_messages (defaultActor Nat Nat Nat) 0
                    [Message.user 5]).state).1 []).trace :=
  ⟨(drain_nonblocking_step_liveness (defaultActor Nat Nat Nat) 0 [] []).1,
    by decide,
    (drain_nonblocking_step_liveness (defaultActor Nat Nat Nat) 0
        [Message.user 5] []).2 (by decide)⟩

/-- C4 counterexample: a subclass whose `run_step` raises `StopException`
(legal: `run_step` is awaited inside the same `try ... except StopException`
as the drain, actor.py lines 54-59) makes `run` return normally on an
iteration with an empty mailbox, although no message was handled and no
signal came from message handling — so "run returns normally if and only if
a StopException is raised from within message handling" fails at this
input. -/
theorem run_step_stop_counterexample :
    (run stepStopActor 0 [[]]).exit = RunExit.normal
    ∧ (run stepStopActor 0 [[]]).handled = []
    ∧ msgSignal stepStopActor 0 [[]] = StepResult.ok
    ∧ ¬ ((run stepStopActor 0 [[]]).exit = RunExit.normal
          ↔ msgSignal stepStopActor 0 [[]] = StepResult.stop) := by
  decide

/-- C4 amended: `run` returns normally exactly when the first abnormal
signal raised from within its loop body — from message handling or from
`run_step`, both inside the `try` — is the `StopException`; any other
exception propagates out of `run` (the exit is `raised e` exactly when the
first signal is that exception), and `run` is still looping exactly when
nothing signalled at all — so there is no other exit path. -/
theorem run_exit_characterization (A : ActorM σ α ε) (s : σ)
    (sched : List (List (Message α))) :
    ((run A s sched).exit = RunExit.normal
        ↔ loopSignal A s sched = StepResult.stop)
    ∧ (∀ e : ε, (run A s sched).exit = RunExit.raised e
        ↔ loopSignal A s sched = StepResult.exc e)
    ∧ ((run A s sched).exit = RunExit.running
        ↔ loopSignal A s sched = StepResult.ok) := by
  induction sched generalizing s with
  | nil => simp [run, loopSignal]
  | cons batch sched ih =>
    rcases hr : (read_messages A s batch).res with _ | _ | e
    · rcases hp : A.runStepF (read_messages A s batch).state with ⟨s2, rs⟩
      cases rs with
      | ok => simpa [run, loopSignal, hr, hp] using ih s2
      | stop => simp [run, loopSignal, hr, hp]
      | exc e => simp [run, loopSignal, hr, hp]
    · simp [run, loopSignal, hr]
    · simp [run, loopSignal, hr]

/-- C5: `receive_state` applied to a just-collected state returns the actor
unchanged, and `collect_state` itself returns the actor unchanged alongside
the snapshot. -/
theorem state_roundtrip (a : PActor A α) :
    Actor.receive_state a (Actor.collect_state a).1 = a
    ∧ (Actor.collect_state a).2 = a :=
  ⟨rfl, rfl⟩

/-- C6: once a drain whose earlier messages were all handled normally
reaches a `RequestShutdown`, `handle_message` is invoked on exactly the
earlier messages and that `RequestShutdown` and on nothing after it; the
messages still pending stay unconsumed, and `run` exits normally with those
pending messages untouched no matter what arrives later. -/
theorem no_dispatch_after_shutdown (A : ActorM σ α ε) (s : σ)
    (q₁ q₂ : List (Message α)) (more : List (List (Message α)))
    (h : (read_messages A s q₁).res = StepResult.ok) :
    (read_messages A s (q₁ ++ Message.requestShutdown :: q₂)).handled
        = q₁ ++ [Message.requestShutdown]
    ∧ (read_messages A s (q₁ ++ Message.requestShutdown :: q₂)).rest = q₂
    ∧ (run A s ((q₁ ++ Message.requestShutdown :: q₂) :: more)).handled
        = q₁ ++ [Message.requestShutdown]
    ∧ (run A s ((q₁ ++ Message.requestShutdown :: q₂) :: more)).pending = q₂
    ∧ (run A s ((q₁ ++ Message.requestShutdown :: q₂) :: more)).exit
        = RunExit.normal := by
  have happ := read_messages_append A s q₁ (Message.requestShutdown :: q₂) h
  have h1 := (read_messages_of_ok A s q₁ h).1
  have hshut : read_messages A (read_messages A s q₁).state
      (Message.requestShutdown :: q₂)
      = ⟨A.shutdownF (read_messages A s q₁).state,
          [Message.requestShutdown],
          [Event.shutdownCall, Event.didShutdownAck], q₂, StepResult.stop⟩ :=
    rfl
  rw [hshut] at happ
  refine ⟨by rw [happ, h1], by rw [happ], ?_, ?_, ?_⟩ <;>
    simp [run, happ, h1]

/-- C6 witness: queue `[user 1, requestShutdown, user 2]` with a later
batch `[user 3]`: only `user 1` and the shutdown request are dispatched. -/
theorem no_dispatch_after_shutdown_witness :
    (read_messages (defaultActor Nat Nat Nat) 0 [Message.user 1]).res
        = StepResult.ok
    ∧ (run (defaultActor Nat Nat Nat) 0
        (([Message.user 1] ++ Message.requestShutdown :: [Message.user 2])
          :: [[Message.user 3]])).handled
        = [Message.user 1] ++ [Message.requestShutdown]
    ∧ (run (defaultActor Nat Nat Nat) 0
        (([Message.user 1] ++ Message.requestShutdown :: [Message.user 2])
          :: [[Message.user 3]])).pending = [Message.user 2] :=
  ⟨by decide,
    (no_dispatch_after_shutdown (defaultActor Nat Nat Nat) 0
        [Message.user 1] [Message.user 2] [[Message.user 3]]
        (by decide)).2.2.1,
    (no_dispatch_after_shutdown (defaultActor Nat Nat Nat) 0
        [Message.user 1] [Message.user 2] [[Message.user 3]]
        (by decide)).2.2.2.1⟩

/-- C7: every non-`RequestShutdown` message is forwarded by
`handle_message` to `handle_user_message` (the resulting state and signal
are exactly the user handler's), and the stock `MessagingActor` handler
discards it: state unchanged, no exception, only the forwarding recorded. -/
theorem user_message_forwarding (A : ActorM σ α ε) (s : σ) (a : α) :
    handle_message A s (Message.user a)
        = ((A.hUser s a).1, [Event.userMsg a], (A.hUser s a).2)
    ∧ handle_message (defaultActor σ α ε) s (Message.user a)
        = (s, [Event.userMsg a], StepResult.ok) :=
  ⟨rfl, rfl⟩

/-- C8: a freshly constructed actor has no mailbox (`messages` is `None`),
`prepare` allocates an empty FIFO mailbox, and the startup pass applies
`prepare` exactly once to every registered actor. -/
theorem prepare_allocates_mailbox (app : A) (a : PActor A α)
    (reg : List (String × PActor A α)) :
    (Actor.init app : PActor A α).messages = none
    ∧ (Actor.prepare a).messages = some []
    ∧ startup reg = reg.map (fun p => (p.1, Actor.prepare p.2)) := by
  refine ⟨rfl, rfl, ?_⟩
  induction reg with
  | nil => rfl
  | cons p rest ih => cases p; simp [startup, ih]

/-- C10: `Actor.run` raises `NotImplementedError` for every actor, and
`EchoActor`, which inherits `run` from `Actor`, raises the same way while
handling no message at all — `handle_user_message` is never invoked. -/
theorem actor_run_not_implemented (a : PActor A α) :
    Actor.run a = ([], Except.error PyExc.notImplementedError)
    ∧ EchoActor.run a = Actor.run a
    ∧ (EchoActor.run a).1 = [] :=
  ⟨rfl, rfl, rfl⟩

end Autodidaqt

namespace Daquiri

/-- C9: the short name "forget" resolves to `ForgetfulSaver`, whose
`save_run` and `save_user_extras` perform no writes for any metadata, data,
extras and context; a short name outside
`{"zarr", "pickle", "nc", "forget"}` resolves to `None` rather than
raising. -/
theorem forget_saver_noop (μ δ γ η β : Type) (m : μ) (d : δ) (c : γ) (e : η)
    (s : String) (hs : s ∉ ["zarr", "pickle", "nc", "forget"]) :
    save_cls_from_short_name "forget" = some SaverCls.forgetfulSaver
    ∧ @ForgetfulSaver.save_run μ δ γ β m d c = []
    ∧ @ForgetfulSaver.save_user_extras η γ β e c = []
    ∧ save_cls_from_short_name s = none := by
  refine ⟨by decide, rfl, rfl, ?_⟩
  simp only [List.mem_cons, List.not_mem_nil, or_false, not_or] at hs
  obtain ⟨h1, h2, h3, h4⟩ := hs
  simp [save_cls_from_short_name, _by_short_names, short_name,
    List.find?, Ne.symm h1, Ne.symm h2, Ne.symm h3, Ne.symm h4]

/-- C9 witness: the unknown short name "json" resolves to `None`. -/
theorem forget_saver_noop_witness :
    ("json" ∉ ["zarr", "pickle", "nc", "forget"])
    ∧ save_cls_from_short_name "json" = none :=
  ⟨by decide,
    (forget_saver_noop Unit Unit Unit Unit Unit () () () () "json"
        (by decide)).2.2.2⟩

end Daquiri
